import Mathlib

/-!
Verification of the pysockr server core (src/inst/py-src/server.py and
src/inst/py-src/pysockr.py; the two scripts implement the same loop).

The embedding models:
* the process-wide `sys.stdout` destination as a `Sink` (the real stdout or
  one of the allocated in-memory `StringIO` buffers), held in a `StdState`;
* the `stdoutIO` context manager exactly as written — in particular its
  generator body has no try/finally around the `yield`, so when the body of
  the `with` raises, the assignment restoring `sys.stdout` is skipped;
* the opaque Python interpreter (`exec(compile(data, "<from R>", "exec"))`)
  as a parameter `π : String → List String × Option String` giving the
  ordered stdout writes the payload performs and, when it raises, the
  traceback text `traceback.format_exc()` returns (the writes already made
  before the raise stay in the list);
* one accepted connection as a `ConnSpec` (the bytes the client sent, plus
  flags saying whether accept/recv/sendall succeed at the transport level),
  handled by `handleConn`, the body of the `while True:` loop including its
  `finally:` block;
* the server loop `serverLoop` over the finite trace of arriving clients.
-/

namespace Pysockr

/-- A destination for `print`-style writes: the process's real standard
output, or the `StringIO` buffer with the given allocation id. -/
inductive Sink where
  | real : Sink
  | buffer : Nat → Sink
deriving DecidableEq

/-- The mutable state touched by output redirection: how many `StringIO`
buffers have been allocated, each buffer's accumulated contents, the current
`sys.stdout` destination, and the text that reached the real stdout. -/
structure StdState where
  bufCount : Nat
  bufContents : Nat → String
  sysStdout : Sink
  realOut : String

/-- Write text to whatever `sys.stdout` currently points at (a `print` call
writes its argument followed by a newline; callers append the newline). -/
def writeStr (s : StdState) (t : String) : StdState :=
  match s.sysStdout with
  | Sink.real => { s with realOut := s.realOut ++ t }
  | Sink.buffer i =>
      { s with bufContents := fun j => if j = i then s.bufContents j ++ t else s.bufContents j }

/-- Perform a sequence of writes in order. -/
def runWrites (s : StdState) (ws : List String) : StdState :=
  ws.foldl writeStr s

/-- What a Python block run under the capture scope does: the ordered list
of stdout writes it makes, and whether it raises at the end. -/
structure PyAction where
  writes : List String
  raises : Bool

/-- The `stdoutIO` context manager, as written in the source:
`old = sys.stdout; stdout = io.StringIO(); sys.stdout = stdout;
yield stdout; sys.stdout = old`. On normal exit of the `with` body the old
destination is restored and the buffer's `getvalue()` is returned; when the
body raises, the exception propagates from the `yield` and — the generator
having no try/finally — the restoring assignment never runs, so the result
is `none` and `sys.stdout` is left pointing at the capture buffer. -/
def stdoutIO (s : StdState) (act : PyAction) : StdState × Option String :=
  let old := s.sysStdout
  let bid := s.bufCount
  let s1 : StdState :=
    { s with bufCount := s.bufCount + 1,
             bufContents := fun j => if j = bid then "" else s.bufContents j,
             sysStdout := Sink.buffer bid }
  let s2 := runWrites s1 act.writes
  if act.raises then
    (s2, none)
  else
    ({ s2 with sysStdout := old }, some (s2.bufContents bid))

/-- Concatenation of a list of written chunks, in order. -/
def concatAll : List String → String
  | [] => ""
  | w :: ws => w ++ concatAll ws

/-- Strict UTF-8 decoding of a byte sequence to code points, as performed by
`bytes.decode(encoding = 'UTF-8')`: continuation bytes must lie in
0x80..0xBF, overlong encodings (lead bytes 0xC0/0xC1, 0xE0 with a first
continuation below 0xA0, 0xF0 with a first continuation below 0x90),
surrogates (0xED with a first continuation above 0x9F) and code points past
U+10FFFF (lead 0xF4 with a first continuation above 0x8F, lead bytes above
0xF4) are rejected; `none` models the `UnicodeDecodeError` the call raises.
The decoder consumes one byte per step (an incremental decoder state
machine): `acc` is the code point being assembled, `needed` the number of
continuation bytes still expected, and `lo`/`hi` the admissible range for
the next continuation byte (tightened after the lead bytes 0xE0, 0xED,
0xF0, 0xF4 exactly as strict UTF-8 demands). -/
def utf8DecodeAux : Nat → Nat → Nat → Nat → List Nat → Option (List Nat)
  | _, needed, _, _, [] => if needed = 0 then some [] else none
  | acc, needed, lo, hi, b :: rest =>
    if needed = 0 then
      if b < 0x80 then (utf8DecodeAux 0 0 0x80 0xBF rest).map (fun cs => b :: cs)
      else if b < 0xC2 then none
      else if b ≤ 0xDF then utf8DecodeAux (b - 0xC0) 1 0x80 0xBF rest
      else if b = 0xE0 then utf8DecodeAux 0 2 0xA0 0xBF rest
      else if b = 0xED then utf8DecodeAux 0xD 2 0x80 0x9F rest
      else if b ≤ 0xEF then utf8DecodeAux (b - 0xE0) 2 0x80 0xBF rest
      else if b = 0xF0 then utf8DecodeAux 0 3 0x90 0xBF rest
      else if b ≤ 0xF3 then utf8DecodeAux (b - 0xF0) 3 0x80 0xBF rest
      else if b = 0xF4 then utf8DecodeAux 4 3 0x80 0x8F rest
      else none
    else
      if lo ≤ b ∧ b ≤ hi then
        if needed = 1 then
          (utf8DecodeAux 0 0 0x80 0xBF rest).map (fun cs => (acc * 0x40 + (b - 0x80)) :: cs)
        else utf8DecodeAux (acc * 0x40 + (b - 0x80)) (needed - 1) 0x80 0xBF rest
      else none

/-- UTF-8 decode to a string (`recv(1024).decode(encoding = 'UTF-8')`). -/
def utf8Decode (bs : List Nat) : Option String :=
  (utf8DecodeAux 0 0 0x80 0xBF bs).map (fun cs => String.mk (cs.map Char.ofNat))

/-- UTF-8 encoding of a string (`result.encode(encoding = 'UTF-8')`); used to
build concrete byte payloads. -/
def utf8EncodeChar (n : Nat) : List Nat :=
  if n < 0x80 then [n]
  else if n < 0x800 then [0xC0 + n / 0x40, 0x80 + n % 0x40]
  else if n < 0x10000 then
    [0xE0 + n / 0x1000, 0x80 + (n / 0x40) % 0x40, 0x80 + n % 0x40]
  else
    [0xF0 + n / 0x40000, 0x80 + (n / 0x1000) % 0x40, 0x80 + (n / 0x40) % 0x40, 0x80 + n % 0x40]

def utf8Encode (t : String) : List Nat :=
  t.toList.foldr (fun ch acc => utf8EncodeChar ch.toNat ++ acc) []

/-- Does the character list start with the given pattern? -/
def charsStartWith : List Char → List Char → Bool
  | _, [] => true
  | [], _ :: _ => false
  | a :: as, b :: bs => a = b && charsStartWith as bs

/-- Contiguous-substring containment on character lists, the semantics of
Python's `needle in haystack` for strings. -/
def charsContain : List Char → List Char → Bool
  | [], needle => needle.isEmpty
  | a :: as, needle => charsStartWith (a :: as) needle || charsContain as needle

/-- The quit test of the server: `if "quit" in data:` — substring
containment anywhere in the decoded payload. -/
def hasQuit (data : String) : Bool :=
  charsContain data.toList "quit".toList

/-- The opaque Python interpreter behind
`exec(compile(str(data), "<from R>", "exec"))`: for a source text it yields
the ordered stdout writes the execution performs and, when compilation or
execution raises, the text `traceback.format_exc()` renders for the raised
exception (writes already made before the raise stay in the list). -/
def PyInterp : Type := String → List String × Option String

/-- The writes that land in the capture buffer while the with-block body
`try: exec(...) except: print("pysockr-error\n" + traceback.format_exc())`
runs: the payload's own writes, then — only when the payload raises — the except
branch's `print`, which writes the marker line, the traceback text and the
newline `print` appends. The bare `except:` means this body never raises. -/
def execWrites (π : PyInterp) (data : String) : List String :=
  match π data with
  | (out, none) => out
  | (out, some tb) => out ++ ["pysockr-error\n" ++ tb ++ "\n"]

/-- `with stdoutIO() as execout:` around the executor body, followed by
`result = execout.getvalue()`. The body never raises (bare `except:`), so
the scope always takes its normal exit and the `getvalue()` result is
defined. -/
def execCapture (π : PyInterp) (s : StdState) (data : String) : StdState × String :=
  let r := stdoutIO s { writes := execWrites π data, raises := false }
  (r.1, r.2.getD "")

/-- Where, inside one iteration of the server loop, an uncaught exception
was raised: `SERVER.accept()`, `CONN.recv(1024)`, `.decode('UTF-8')`, or
`CONN.sendall(...)`. -/
inductive Stage where
  | accept : Stage
  | recv : Stage
  | decode : Stage
  | send : Stage
deriving DecidableEq

/-- How one iteration of the `while True:` loop ends: fall through to the
next `SERVER.accept()`, `break` on the quit sentinel, or an exception
propagating out of the loop (after the `finally:` block ran). -/
inductive Outcome where
  | next : Outcome
  | quit : Outcome
  | crash : Stage → Outcome
deriving DecidableEq

/-- One client arrival in the trace: the bytes it sends, and whether the
transport operations on its connection succeed. -/
structure ConnSpec where
  bytes : List Nat
  acceptOk : Bool
  recvOk : Bool
  sendOk : Bool

/-- What one iteration of the loop did to its connection: the response body
`CONN.sendall` successfully sent (if it was reached and succeeded), the
source text passed to `exec` (if execution was reached), whether
`CONN.shutdown(2)` and `CONN.close()` ran, and how the iteration ended. -/
structure ConnResult where
  response : Option String
  executedSrc : Option String
  shutdownDone : Bool
  closeDone : Bool
  outcome : Outcome
deriving DecidableEq

/-- One iteration of the server's `while True:` loop, the `try: ... finally:`
body of src/inst/py-src/server.py lines 36-62 (identically pysockr.py lines
46-72). On a successful accept the server prints "new connection", performs
one `CONN.recv(1024)` bounded read, decodes it as UTF-8, answers "QUIT" and
breaks when the decoded text contains "quit", and otherwise logs the
payload, runs it under `stdoutIO` capture, logs and sends the captured
text. The `finally:` block prints "closing connection" and performs
`CONN.shutdown(2); CONN.close()` on every one of those paths; when accept
itself raised there is no current connection to clean up (the `finally:`
still prints, then its `CONN.shutdown(2)` raises as well) and the exception
propagates. -/
def handleConn (π : PyInterp) (s : StdState) (c : ConnSpec) : StdState × ConnResult :=
  if c.acceptOk then
    let s1 := writeStr s "new connection\n"
    if c.recvOk then
      match utf8Decode (c.bytes.take 1024) with
      | some data =>
          if hasQuit data then
            if c.sendOk then
              ( writeStr s1 "closing connection\n",
                { response := some "QUIT", executedSrc := none,
                  shutdownDone := true, closeDone := true, outcome := Outcome.quit })
            else
              ( writeStr s1 "closing connection\n",
                { response := none, executedSrc := none,
                  shutdownDone := true, closeDone := true, outcome := Outcome.crash Stage.send })
          else
            let s2 := writeStr s1 ("from connected  user: " ++ data ++ "\n")
            let ec := execCapture π s2 data
            let s3 := writeStr ec.1 ("sending: " ++ ec.2 ++ "\n")
            if c.sendOk then
              ( writeStr s3 "closing connection\n",
                { response := some ec.2, executedSrc := some data,
                  shutdownDone := true, closeDone := true, outcome := Outcome.next })
            else
              ( writeStr s3 "closing connection\n",
                { response := none, executedSrc := some data,
                  shutdownDone := true, closeDone := true, outcome := Outcome.crash Stage.send })
      | none =>
          ( writeStr s1 "closing connection\n",
            { response := none, executedSrc := none,
              shutdownDone := true, closeDone := true, outcome := Outcome.crash Stage.decode })
    else
      ( writeStr s1 "closing connection\n",
        { response := none, executedSrc := none,
          shutdownDone := true, closeDone := true, outcome := Outcome.crash Stage.recv })
  else
    ( writeStr s "closing connection\n",
      { response := none, executedSrc := none,
        shutdownDone := false, closeDone := false, outcome := Outcome.crash Stage.accept })

/-- How the run of the server loop over a finite arrival trace ended:
still blocked in `SERVER.accept()` waiting for more clients, exited cleanly
through `break` (quit sentinel), or terminated by a propagating exception. -/
inductive ServerEnd where
  | pending : ServerEnd
  | quitDone : ServerEnd
  | crashed : Stage → ServerEnd
deriving DecidableEq

/-- The `while True:` loop over a finite trace of client arrivals: each
iteration runs `handleConn`; on `Outcome.next` the loop continues with the
rest of the trace, on `Outcome.quit` it breaks (the `with
contextlib.closing` releases the listening socket and "shutting down
server" is printed), and on `Outcome.crash` the exception propagates (the
listening socket is still released, but the final print is never reached).
Returns the final output state, the per-connection results in order, and
how the loop ended. -/
def serverLoop (π : PyInterp) : StdState → List ConnSpec → StdState × List ConnResult × ServerEnd
  | s, [] => (s, [], ServerEnd.pending)
  | s, c :: rest =>
    let hc := handleConn π s c
    match hc.2.outcome with
    | Outcome.next =>
        let r := serverLoop π hc.1 rest
        (r.1, hc.2 :: r.2.1, r.2.2)
    | Outcome.quit =>
        ( writeStr hc.1 "shutting down server\n", [hc.2], ServerEnd.quitDone)
    | Outcome.crash st => (hc.1, [hc.2], ServerEnd.crashed st)

/-- The output state at startup: no capture buffer allocated, `sys.stdout`
the real stdout, on which "server is listening" has been printed. -/
def initState : StdState :=
  { bufCount := 0, bufContents := fun _ => "", sysStdout := Sink.real,
    realOut := "server is listening\n" }

/-- A full server run from startup over a trace of client arrivals. -/
def serverRun (π : PyInterp) (conns : List ConnSpec) : StdState × List ConnResult × ServerEnd :=
  serverLoop π initState conns

/-- A sample instantiation of the opaque interpreter, used to evaluate the
theorems on concrete inputs: `print(1+1)` writes "2\n"; the empty script
writes nothing; `print(0) ; boom` writes "0\n" and then raises NameError,
whose traceback text is abbreviated here; everything else writes nothing. -/
def execPyExample : PyInterp := fun src =>
  if src = "print(1+1)" then (["2\n"], none)
  else if src = "print(0) ; boom" then
    (["0\n"], some "Traceback (most recent call last): NameError: name boom is not defined")
  else ([], none)

/-- A well-behaved client connection sending the given text. -/
def connOf (t : String) : ConnSpec :=
  { bytes := utf8Encode t, acceptOk := true, recvOk := true, sendOk := true }

/-- A client that connects and sends zero bytes. -/
def emptyConn : ConnSpec :=
  { bytes := [], acceptOk := true, recvOk := true, sendOk := true }

/-- A connection whose `CONN.recv(1024)` raises at the transport level. -/
def badRecvConn : ConnSpec :=
  { bytes := [], acceptOk := true, recvOk := false, sendOk := true }

/-- A connection delivering a byte that is not valid UTF-8 (0xFF). -/
def badDecodeConn : ConnSpec :=
  { bytes := [0xFF], acceptOk := true, recvOk := true, sendOk := true }

end Pysockr

namespace Pysockr

theorem writeStr_sysStdout (s : StdState) (t : String) :
    ( writeStr s t).sysStdout = s.sysStdout := by
  unfold writeStr
  cases h : s.sysStdout <;> simp [h]

theorem writeStr_bufCount (s : StdState) (t : String) :
    ( writeStr s t).bufCount = s.bufCount := by
  unfold writeStr
  cases h : s.sysStdout <;> simp [h]

theorem writeStr_at (s : StdState) (t : String) (i : Nat) (h : s.sysStdout = Sink.buffer i) :
    ( writeStr s t).bufContents i = s.bufContents i ++ t := by
  unfold writeStr
  rw [h]
  simp

theorem runWrites_sysStdout (ws : List String) (s : StdState) :
    (runWrites s ws).sysStdout = s.sysStdout := by
  induction ws generalizing s with
  | nil => rfl
  | cons w ws ih =>
      show (runWrites ( writeStr s w) ws).sysStdout = _
      rw [ih, writeStr_sysStdout]

theorem runWrites_at (ws : List String) (s : StdState) (i : Nat)
    (h : s.sysStdout = Sink.buffer i) :
    (runWrites s ws).bufContents i = s.bufContents i ++ concatAll ws := by
  induction ws generalizing s with
  | nil => simp [runWrites, concatAll]
  | cons w ws ih =>
      show (runWrites ( writeStr s w) ws).bufContents i = _
      rw [ih ( writeStr s w) (by rw [writeStr_sysStdout, h]), writeStr_at s w i h,
        concatAll, String.append_assoc]

/-- On the normal path (the with-body does not raise), `stdoutIO` returns
exactly the concatenation of the writes made inside the scope, and restores
the previous `sys.stdout`. -/
theorem stdoutIO_no_raise (s : StdState) (act : PyAction) (h : act.raises = false) :
    stdoutIO s act =
      ({ runWrites
          { s with bufCount := s.bufCount + 1,
                   bufContents := fun j => if j = s.bufCount then "" else s.bufContents j,
                   sysStdout := Sink.buffer s.bufCount } act.writes
          with sysStdout := s.sysStdout },
       some (concatAll act.writes)) := by
  unfold stdoutIO
  simp only [h, Bool.false_eq_true, if_false]
  have h2 : (runWrites
      { s with bufCount := s.bufCount + 1,
               bufContents := fun j => if j = s.bufCount then "" else s.bufContents j,
               sysStdout := Sink.buffer s.bufCount } act.writes).bufContents s.bufCount
      = concatAll act.writes := by
    rw [runWrites_at act.writes _ s.bufCount rfl]
    simp [String.empty_append]
  rw [h2]

theorem stdoutIO_no_raise_snd (s : StdState) (act : PyAction) (h : act.raises = false) :
    ( stdoutIO s act).2 = some (concatAll act.writes) := by
  rw [stdoutIO_no_raise s act h]

theorem stdoutIO_no_raise_restores (s : StdState) (act : PyAction) (h : act.raises = false) :
    ( stdoutIO s act).1.sysStdout = s.sysStdout := by
  rw [stdoutIO_no_raise s act h]

theorem execCapture_snd (π : PyInterp) (s : StdState) (data : String) :
    ( execCapture π s data).2 = concatAll ( execWrites π data) := by
  unfold execCapture
  simp [ stdoutIO_no_raise_snd]

theorem concatAll_append (a b : List String) :
    concatAll (a ++ b) = concatAll a ++ concatAll b := by
  induction a with
  | nil => simp [concatAll, String.empty_append]
  | cons w ws ih => simp [concatAll, ih, String.append_assoc]

theorem handleConn_exec (π : PyInterp) (s : StdState) (c : ConnSpec) (data : String)
    (hacc : c.acceptOk = true) (hrecv : c.recvOk = true) (hsend : c.sendOk = true)
    (hdec : utf8Decode (c.bytes.take 1024) = some data) (hq : hasQuit data = false) :
    (handleConn π s c).2 =
      { response := some (concatAll ( execWrites π data)), executedSrc := some data,
        shutdownDone := true, closeDone := true, outcome := Outcome.next } := by
  unfold handleConn
  simp [hacc, hrecv, hsend, hdec, hq, execCapture_snd]

theorem handleConn_quit (π : PyInterp) (s : StdState) (c : ConnSpec) (data : String)
    (hacc : c.acceptOk = true) (hrecv : c.recvOk = true) (hsend : c.sendOk = true)
    (hdec : utf8Decode (c.bytes.take 1024) = some data) (hq : hasQuit data = true) :
    (handleConn π s c).2 =
      { response := some "QUIT", executedSrc := none,
        shutdownDone := true, closeDone := true, outcome := Outcome.quit } := by
  unfold handleConn
  simp [hacc, hrecv, hsend, hdec, hq]

theorem handleConn_recvFail (π : PyInterp) (s : StdState) (c : ConnSpec)
    (hacc : c.acceptOk = true) (hrecv : c.recvOk = false) :
    (handleConn π s c).2 =
      { response := none, executedSrc := none,
        shutdownDone := true, closeDone := true, outcome := Outcome.crash Stage.recv } := by
  unfold handleConn
  simp [hacc, hrecv]

theorem handleConn_decodeFail (π : PyInterp) (s : StdState) (c : ConnSpec)
    (hacc : c.acceptOk = true) (hrecv : c.recvOk = true)
    (hdec : utf8Decode (c.bytes.take 1024) = none) :
    (handleConn π s c).2 =
      { response := none, executedSrc := none,
        shutdownDone := true, closeDone := true, outcome := Outcome.crash Stage.decode } := by
  unfold handleConn
  simp [hacc, hrecv, hdec]

theorem handleConn_acceptFail (π : PyInterp) (s : StdState) (c : ConnSpec)
    (hacc : c.acceptOk = false) :
    (handleConn π s c).2 =
      { response := none, executedSrc := none,
        shutdownDone := false, closeDone := false, outcome := Outcome.crash Stage.accept } := by
  unfold handleConn
  simp [hacc]

theorem serverLoop_cons_next (π : PyInterp) (s : StdState) (c : ConnSpec) (rest : List ConnSpec)
    (h : (handleConn π s c).2.outcome = Outcome.next) :
    serverLoop π s (c :: rest) =
      ((serverLoop π (handleConn π s c).1 rest).1,
       (handleConn π s c).2 :: (serverLoop π (handleConn π s c).1 rest).2.1,
       (serverLoop π (handleConn π s c).1 rest).2.2) := by
  conv_lhs => unfold serverLoop
  simp only [h]

theorem serverLoop_cons_quit (π : PyInterp) (s : StdState) (c : ConnSpec) (rest : List ConnSpec)
    (h : (handleConn π s c).2.outcome = Outcome.quit) :
    serverLoop π s (c :: rest) =
      ( writeStr (handleConn π s c).1 "shutting down server\n",
        [(handleConn π s c).2], ServerEnd.quitDone) := by
  conv_lhs => unfold serverLoop
  simp only [h]

theorem serverLoop_cons_crash (π : PyInterp) (s : StdState) (c : ConnSpec) (rest : List ConnSpec)
    (st : Stage) (h : (handleConn π s c).2.outcome = Outcome.crash st) :
    serverLoop π s (c :: rest) =
      ((handleConn π s c).1, [(handleConn π s c).2], ServerEnd.crashed st) := by
  conv_lhs => unfold serverLoop
  simp only [h]

theorem charsStartWith_append (n m : List Char) : charsStartWith (n ++ m) n = true := by
  induction n with
  | nil => cases m <;> rfl
  | cons a as ih => simp [charsStartWith, ih]

theorem charsContain_of_startsWith (ys n : List Char) (h : charsStartWith ys n = true) :
    charsContain ys n = true := by
  cases ys with
  | nil =>
      cases n with
      | nil => rfl
      | cons b bs => simp [charsStartWith] at h
  | cons a as => simp [charsContain, h]

theorem charsContain_append_right (xs ys n : List Char) (h : charsContain ys n = true) :
    charsContain (xs ++ ys) n = true := by
  induction xs with
  | nil => simpa using h
  | cons a as ih => simp [charsContain, ih]

theorem marker_in_chunk_response (a tb : String) :
    charsContain (a ++ ("pysockr-error\n" ++ tb ++ "\n")).toList "pysockr-error".toList = true := by
  have hsplit : (a ++ ("pysockr-error\n" ++ tb ++ "\n")).toList
      = a.toList ++ ("pysockr-error\n" ++ tb ++ "\n").toList := by
    simp [String.toList, String.data_append]
  rw [hsplit]
  apply charsContain_append_right
  apply charsContain_of_startsWith
  have h2 : ("pysockr-error\n" ++ tb ++ "\n").toList
      = "pysockr-error".toList ++ ('\n' :: (tb.toList ++ ['\n'])) := by
    have hlit : "pysockr-error\n".toList = "pysockr-error".toList ++ ['\n'] := by decide
    simp [String.toList, String.data_append, hlit]
  rw [h2]
  exact charsStartWith_append _ _

theorem handleConn_cleanup (π : PyInterp) (s : StdState) (c : ConnSpec)
    (hacc : c.acceptOk = true) :
    (handleConn π s c).2.shutdownDone = true ∧ (handleConn π s c).2.closeDone = true := by
  unfold handleConn
  simp only [hacc]
  repeat' split
  all_goals simp_all

/-- C1: for every payload that does not contain "quit" and whose execution
does not raise, the response sent back over the connection equals exactly
the text the payload wrote to the redirected output stream (the
concatenation of its writes, hence the empty string when it writes
nothing); the server's own log prints happen outside the capture scope and
never enter it. -/
theorem response_is_exactly_captured_output (π : PyInterp) (s : StdState) (c : ConnSpec)
    (data : String) (out : List String)
    (hacc : c.acceptOk = true) (hrecv : c.recvOk = true) (hsend : c.sendOk = true)
    (hdec : utf8Decode (c.bytes.take 1024) = some data)
    (hq : hasQuit data = false) (hexec : π data = (out, none)) :
    (handleConn π s c).2.response = some (concatAll out) := by
  rw [handleConn_exec π s c data hacc hrecv hsend hdec hq]
  simp [ execWrites, hexec]

theorem response_is_exactly_captured_output_witness :
    utf8Decode ((connOf "print(1+1)").bytes.take 1024) = some "print(1+1)" ∧
    hasQuit "print(1+1)" = false ∧
    execPyExample "print(1+1)" = (["2\n"], none) ∧
    (handleConn execPyExample initState (connOf "print(1+1)")).2.response
      = some (concatAll ["2\n"]) :=
  ⟨by decide, by decide, by decide,
   response_is_exactly_captured_output execPyExample initState (connOf "print(1+1)")
     "print(1+1)" ["2\n"] rfl rfl rfl (by decide) (by decide) (by decide)⟩

/-- C2: a payload containing "quit" anywhere as a substring is never
executed as code, is answered with exactly "QUIT", and breaks the loop: the
run ends with the quit exit and the trailing clients contribute no results
(no further connection is accepted). -/
theorem quit_substring_stops_server (π : PyInterp) (s : StdState) (c : ConnSpec)
    (rest : List ConnSpec) (data : String)
    (hacc : c.acceptOk = true) (hrecv : c.recvOk = true) (hsend : c.sendOk = true)
    (hdec : utf8Decode (c.bytes.take 1024) = some data)
    (hq : hasQuit data = true) :
    (handleConn π s c).2.response = some "QUIT" ∧
    (handleConn π s c).2.executedSrc = none ∧
    (serverLoop π s (c :: rest)).2.1 = [(handleConn π s c).2] ∧
    (serverLoop π s (c :: rest)).2.2 = ServerEnd.quitDone := by
  have h := handleConn_quit π s c data hacc hrecv hsend hdec hq
  have hout : (handleConn π s c).2.outcome = Outcome.quit := by rw [h]
  refine ⟨by rw [h], by rw [h], ?_, ?_⟩
  · rw [serverLoop_cons_quit π s c rest hout]
  · rw [serverLoop_cons_quit π s c rest hout]

theorem quit_substring_stops_server_witness :
    utf8Decode ((connOf "please quit now").bytes.take 1024) = some "please quit now" ∧
    hasQuit "please quit now" = true ∧
    (handleConn execPyExample initState (connOf "please quit now")).2.response = some "QUIT" ∧
    (serverLoop execPyExample initState [connOf "please quit now", connOf "print(1+1)"]).2.2
      = ServerEnd.quitDone :=
  ⟨by decide, by decide,
   (quit_substring_stops_server execPyExample initState (connOf "please quit now")
     [connOf "print(1+1)"] "please quit now" rfl rfl rfl (by decide) (by decide)).1,
   (quit_substring_stops_server execPyExample initState (connOf "please quit now")
     [connOf "print(1+1)"] "please quit now" rfl rfl rfl (by decide) (by decide)).2.2.2⟩

/-- C3 (code bug): the claim says the previous standard-output destination
is restored on every exit path of the capture scope, but the `stdoutIO`
generator has no try/finally around its `yield`, so when the action inside
the `with` raises, the restoring assignment `sys.stdout = old` never runs:
starting from the initial state (whose destination is the real stdout), an
action that writes and then raises leaves `sys.stdout` pointing at the
capture buffer. Restoration does hold on the normal exit path. -/
theorem stdoutIO_raise_skips_restore :
    initState.sysStdout = Sink.real ∧
    ( stdoutIO initState { writes := ["x"], raises := true }).1.sysStdout = Sink.buffer 0 ∧
    Sink.buffer 0 ≠ Sink.real := by
  refine ⟨rfl, rfl, by decide⟩

/-- C4: a payload whose compilation or execution raises is contained by the
bare `except:`: the diagnostic (marker plus traceback) is printed into the
captured output, the client receives it as a normal response carrying the
"pysockr-error" marker, the iteration ends normally, and the loop goes on
to handle the subsequent connections. -/
theorem exec_failure_contained (π : PyInterp) (s : StdState) (c : ConnSpec)
    (rest : List ConnSpec) (data : String) (out : List String) (tb : String)
    (hacc : c.acceptOk = true) (hrecv : c.recvOk = true) (hsend : c.sendOk = true)
    (hdec : utf8Decode (c.bytes.take 1024) = some data)
    (hq : hasQuit data = false) (hexec : π data = (out, some tb)) :
    (handleConn π s c).2.outcome = Outcome.next ∧
    (∃ resp, (handleConn π s c).2.response = some resp ∧
      charsContain resp.toList "pysockr-error".toList = true) ∧
    (serverLoop π s (c :: rest)).2.1 =
      (handleConn π s c).2 :: (serverLoop π (handleConn π s c).1 rest).2.1 ∧
    (serverLoop π s (c :: rest)).2.2 = (serverLoop π (handleConn π s c).1 rest).2.2 := by
  have h := handleConn_exec π s c data hacc hrecv hsend hdec hq
  have hout : (handleConn π s c).2.outcome = Outcome.next := by rw [h]
  refine ⟨hout, ?_, ?_, ?_⟩
  · refine ⟨concatAll ( execWrites π data), by rw [h], ?_⟩
    have hresp : concatAll ( execWrites π data)
        = concatAll out ++ ("pysockr-error\n" ++ tb ++ "\n") := by
      simp [ execWrites, hexec, concatAll_append, concatAll, String.append_empty]
    rw [hresp]
    exact marker_in_chunk_response _ _
  · rw [serverLoop_cons_next π s c rest hout]
  · rw [serverLoop_cons_next π s c rest hout]

theorem exec_failure_contained_witness :
    hasQuit "print(0) ; boom" = false ∧
    execPyExample "print(0) ; boom"
      = (["0\n"], some "Traceback (most recent call last): NameError: name boom is not defined") ∧
    (handleConn execPyExample initState (connOf "print(0) ; boom")).2.outcome = Outcome.next :=
  ⟨by decide, by decide,
   (exec_failure_contained execPyExample initState (connOf "print(0) ; boom")
     [connOf "print(1+1)"] "print(0) ; boom" ["0\n"]
     "Traceback (most recent call last): NameError: name boom is not defined"
     rfl rfl rfl (by decide) (by decide) (by decide)).1⟩

/-- C5 counterexample: the claim says an exception raised while reading or
writing a connection is caught and the server loop continues accepting
subsequent connections. It is false on this code: with a failing-recv
client followed by a healthy client, the run ends crashed at the recv stage
and only one connection result is produced — the second client is never
served. -/
theorem read_failure_not_contained_counterexample :
    (serverRun execPyExample [badRecvConn, connOf "print(1+1)"]).2.2
      = ServerEnd.crashed Stage.recv ∧
    (serverRun execPyExample [badRecvConn, connOf "print(1+1)"]).2.1.length = 1 := by
  refine ⟨rfl, rfl⟩

/-- C5 (amended): when reading or writing a connection raises, the
`finally:` cleanup still runs (shutdown and close are performed), but the
exception is NOT caught: it propagates out of the loop, which terminates
without accepting the remaining connections. -/
theorem io_failure_runs_cleanup_then_kills_loop (π : PyInterp) (s : StdState) (c : ConnSpec)
    (rest : List ConnSpec)
    (h : (handleConn π s c).2.outcome = Outcome.crash Stage.recv ∨
         (handleConn π s c).2.outcome = Outcome.crash Stage.send) :
    (handleConn π s c).2.shutdownDone = true ∧
    (handleConn π s c).2.closeDone = true ∧
    (serverLoop π s (c :: rest)).2.1 = [(handleConn π s c).2] ∧
    (∃ st, (serverLoop π s (c :: rest)).2.2 = ServerEnd.crashed st) := by
  have hacc : c.acceptOk = true := by
    by_cases ha : c.acceptOk = true
    · exact ha
    · exfalso
      have hb : c.acceptOk = false := by simpa using ha
      have hf := handleConn_acceptFail π s c hb
      rcases h with h | h <;> rw [hf] at h <;> simp at h
  obtain ⟨h1, h2⟩ := handleConn_cleanup π s c hacc
  refine ⟨h1, h2, ?_, ?_⟩
  · rcases h with h | h <;> rw [serverLoop_cons_crash π s c rest _ h]
  · rcases h with h | h <;> exact ⟨_, by rw [serverLoop_cons_crash π s c rest _ h]⟩

theorem io_failure_runs_cleanup_then_kills_loop_witness :
    (handleConn execPyExample initState badRecvConn).2.outcome = Outcome.crash Stage.recv ∧
    (handleConn execPyExample initState badRecvConn).2.shutdownDone = true ∧
    (serverLoop execPyExample initState [badRecvConn]).2.1
      = [(handleConn execPyExample initState badRecvConn).2] :=
  ⟨by decide,
   (io_failure_runs_cleanup_then_kills_loop execPyExample initState badRecvConn []
     (Or.inl (by decide))).1,
   (io_failure_runs_cleanup_then_kills_loop execPyExample initState badRecvConn []
     (Or.inl (by decide))).2.2.1⟩

/-- C6: failures the loop does not contain — a transport failure at accept,
recv or sendall, or a UTF-8 decode failure — propagate: whenever an
iteration ends in a crash outcome the loop terminates crashed with no
further connection processed (no retry); and an accept failure, a recv
failure and a decode failure each do produce the corresponding crash
outcome (in particular no fallback encoding is attempted on bad UTF-8). -/
theorem unrecovered_failures_terminate_loop (π : PyInterp) (s : StdState) (c : ConnSpec)
    (rest : List ConnSpec) (st : Stage) :
    ((handleConn π s c).2.outcome = Outcome.crash st →
      (serverLoop π s (c :: rest)).2.1 = [(handleConn π s c).2] ∧
      (serverLoop π s (c :: rest)).2.2 = ServerEnd.crashed st) ∧
    (c.acceptOk = false → (handleConn π s c).2.outcome = Outcome.crash Stage.accept) ∧
    (c.acceptOk = true → c.recvOk = false →
      (handleConn π s c).2.outcome = Outcome.crash Stage.recv) ∧
    (c.acceptOk = true → c.recvOk = true → utf8Decode (c.bytes.take 1024) = none →
      (handleConn π s c).2.outcome = Outcome.crash Stage.decode) ∧
    (∀ data, c.acceptOk = true → c.recvOk = true →
      utf8Decode (c.bytes.take 1024) = some data → c.sendOk = false →
      (handleConn π s c).2.outcome = Outcome.crash Stage.send) := by
  refine ⟨fun h => ⟨?_, ?_⟩, fun h => ?_, fun h1 h2 => ?_, fun h1 h2 h3 => ?_,
    fun data h1 h2 h3 h4 => ?_⟩
  · rw [serverLoop_cons_crash π s c rest st h]
  · rw [serverLoop_cons_crash π s c rest st h]
  · rw [handleConn_acceptFail π s c h]
  · rw [handleConn_recvFail π s c h1 h2]
  · rw [handleConn_decodeFail π s c h1 h2 h3]
  · unfold handleConn
    simp only [h1, h2, h3, h4]
    repeat' split
    all_goals simp_all

theorem unrecovered_failures_terminate_loop_witness :
    utf8Decode (badDecodeConn.bytes.take 1024) = none ∧
    (handleConn execPyExample initState badDecodeConn).2.outcome
      = Outcome.crash Stage.decode ∧
    (serverLoop execPyExample initState [badDecodeConn, connOf "print(1+1)"]).2.2
      = ServerEnd.crashed Stage.decode :=
  ⟨by decide,
   (unrecovered_failures_terminate_loop execPyExample initState badDecodeConn
     [connOf "print(1+1)"] Stage.decode).2.2.2.1 rfl rfl (by decide),
   ((unrecovered_failures_terminate_loop execPyExample initState badDecodeConn
     [connOf "print(1+1)"] Stage.decode).1 (by decide)).2⟩

/-- C7: exactly one bounded `CONN.recv(1024)` read is performed, so handling
a connection is completely insensitive to everything past the first 1024
bytes — the payload is truncated to `bytes.take 1024` before the quit check
and execution — while a payload of at most the buffer size is processed in
full (`take 1024` leaves it unchanged). -/
theorem recv_truncates_at_1024 (π : PyInterp) (s : StdState) (c : ConnSpec) :
    handleConn π s c = handleConn π s { c with bytes := c.bytes.take 1024 } ∧
    (c.bytes.length ≤ 1024 → c.bytes.take 1024 = c.bytes) := by
  constructor
  · obtain ⟨bs, a, r, w⟩ := c
    unfold handleConn
    simp [List.take_take]
  · exact fun h => List.take_of_length_le h

theorem recv_truncates_at_1024_witness :
    (connOf "print(1+1)").bytes.length ≤ 1024 ∧
    (connOf "print(1+1)").bytes.take 1024 = (connOf "print(1+1)").bytes :=
  ⟨by decide,
   (recv_truncates_at_1024 execPyExample initState (connOf "print(1+1)")).2 (by decide)⟩

/-- C8: for every accepted connection, the `finally:` block performs the
full-duplex `shutdown(2)` and `close()` on every exit of the
request/response cycle — normal completion, the quit path, and crashes
during reading, decoding or responding alike. -/
theorem accepted_connection_always_closed (π : PyInterp) (s : StdState) (c : ConnSpec)
    (hacc : c.acceptOk = true) :
    (handleConn π s c).2.shutdownDone = true ∧ (handleConn π s c).2.closeDone = true :=
  handleConn_cleanup π s c hacc

theorem accepted_connection_always_closed_witness :
    badRecvConn.acceptOk = true ∧
    (handleConn execPyExample initState badRecvConn).2.shutdownDone = true ∧
    (handleConn execPyExample initState badRecvConn).2.closeDone = true :=
  ⟨rfl,
   (accepted_connection_always_closed execPyExample initState badRecvConn rfl).1,
   (accepted_connection_always_closed execPyExample initState badRecvConn rfl).2⟩

/-- C9: a client that connects and sends zero bytes yields the empty decoded
payload; it does not match the quit sentinel, the empty script is executed
(writing nothing, so the response is the empty string), and the loop
continues with the next connection. -/
theorem empty_payload_empty_response (π : PyInterp) (s : StdState) (rest : List ConnSpec)
    (hexec : π "" = ([], none)) :
    (handleConn π s emptyConn).2.response = some "" ∧
    (handleConn π s emptyConn).2.executedSrc = some "" ∧
    (handleConn π s emptyConn).2.outcome = Outcome.next ∧
    (serverLoop π s (emptyConn :: rest)).2.1 =
      (handleConn π s emptyConn).2 :: (serverLoop π (handleConn π s emptyConn).1 rest).2.1 := by
  have hdec : utf8Decode (emptyConn.bytes.take 1024) = some "" := by decide
  have hq : hasQuit "" = false := by decide
  have h := handleConn_exec π s emptyConn "" rfl rfl rfl hdec hq
  have hout : (handleConn π s emptyConn).2.outcome = Outcome.next := by rw [h]
  refine ⟨?_, by rw [h], hout, ?_⟩
  · rw [h]
    simp [ execWrites, hexec, concatAll]
  · rw [serverLoop_cons_next π s emptyConn rest hout]

theorem empty_payload_empty_response_witness :
    execPyExample "" = ([], none) ∧
    (handleConn execPyExample initState emptyConn).2.response = some "" ∧
    (handleConn execPyExample initState emptyConn).2.outcome = Outcome.next :=
  ⟨by decide,
   (empty_payload_empty_response execPyExample initState [] (by decide)).1,
   (empty_payload_empty_response execPyExample initState [] (by decide)).2.2.1⟩

/-- C10: when the payload writes output and then raises, the response is the
output written before the failure, followed by the literal marker
"pysockr-error\n", the formatted traceback text, and the trailing newline
the `print` call appends — the partial output is retained, never
discarded. -/
theorem partial_output_retained_on_error (π : PyInterp) (s : StdState) (c : ConnSpec)
    (data : String) (out : List String) (tb : String)
    (hacc : c.acceptOk = true) (hrecv : c.recvOk = true) (hsend : c.sendOk = true)
    (hdec : utf8Decode (c.bytes.take 1024) = some data)
    (hq : hasQuit data = false) (hexec : π data = (out, some tb)) :
    (handleConn π s c).2.response
      = some (concatAll out ++ ("pysockr-error\n" ++ tb ++ "\n")) := by
  rw [handleConn_exec π s c data hacc hrecv hsend hdec hq]
  simp [ execWrites, hexec, concatAll_append, concatAll, String.append_empty]

theorem partial_output_retained_on_error_witness :
    execPyExample "print(0) ; boom"
      = (["0\n"], some "Traceback (most recent call last): NameError: name boom is not defined") ∧
    (handleConn execPyExample initState (connOf "print(0) ; boom")).2.response
      = some (concatAll ["0\n"] ++
          ("pysockr-error\n" ++
            "Traceback (most recent call last): NameError: name boom is not defined" ++ "\n")) :=
  ⟨by decide,
   partial_output_retained_on_error execPyExample initState (connOf "print(0) ; boom")
     "print(0) ; boom" ["0\n"]
     "Traceback (most recent call last): NameError: name boom is not defined"
     rfl rfl rfl (by decide) (by decide) (by decide)⟩

end Pysockr
